import Mathlib

/-!
Verification development for the backtesting engine
(`backend/services/backtest.py` and `backend/services/transform.py`).

Timestamps are modelled as rational numbers of days since the Unix epoch;
calendar arithmetic (extracting a year, building January 1 of a year) uses
the standard proleptic-Gregorian civil-calendar algorithms, mirroring the
pandas timestamp operations the source relies on.  Prices and indicator
values are rationals.  The vectorbt portfolio object is an external
collaborator and is modelled as an oracle function from the settings the
engine passes to it to the scalar statistics the engine reads back.
-/

/-- Day number of the proleptic Gregorian date (y, m, d), with day 0 being
1970-01-01 (the standard civil-from-days correspondence). -/
def days_from_civil (y m d : ℤ) : ℤ :=
  let y' := if m ≤ 2 then y - 1 else y
  let era := Int.fdiv y' 400
  let yoe := y' - era * 400
  let mp := Int.emod (m + 9) 12
  let doy := Int.fdiv (153 * mp + 2) 5 + d - 1
  let doe := yoe * 365 + Int.fdiv yoe 4 - Int.fdiv yoe 100 + doy
  era * 146097 + doe - 719468

/-- Calendar year of a day number (inverse direction of `days_from_civil`). -/
def civil_year_from_days (z0 : ℤ) : ℤ :=
  let z := z0 + 719468
  let era := Int.fdiv z 146097
  let doe := z - era * 146097
  let yoe := Int.fdiv (doe - Int.fdiv doe 1460 + Int.fdiv doe 36524 - Int.fdiv doe 146096) 365
  let y := yoe + era * 400
  let doy := doe - (365 * yoe + Int.fdiv yoe 4 - Int.fdiv yoe 100)
  let mp := Int.fdiv (5 * doy + 2) 153
  let m := mp + (if mp < 10 then 3 else -9)
  if m ≤ 2 then y + 1 else y

/-- Calendar year of a timestamp measured in (possibly fractional) days. -/
def year_of (t : ℚ) : ℤ := civil_year_from_days ⌊t⌋

/-- One row of the engine's working DataFrame: timestamp `t` (days since
epoch), raw indicator `v`, raw price `usd`, and the transformed columns
`v_transformed` / `usd_transformed`. -/
structure Tick where
  t : ℚ
  v : ℚ
  usd : ℚ
  vTransformed : ℚ
  usdTransformed : ℚ
  deriving DecidableEq, Repr

/-- Source expression `df['t'].max()` for a nonempty frame (`0` stands in for NaT on an empty
frame; the empty case is never consulted by any branch that uses it). -/
def latest_date : List Tick → ℚ
  | [] => 0
  | tk :: tks => tks.foldl (fun m x => max m x.t) tk.t

/-- The period tags the filter's `elif` chain recognizes. -/
def recognized_period_tags : List String :=
  ["1w", "1m", "3m", "6m", "1y", "ytd", "2y", "3y", "4y", "5y",
   "6y", "7y", "8y", "9y", "10y", "all"]

/-- Function `filter_data_by_period`: truncates the series to a trailing window
measured from the series' own latest timestamp.  `all` and every
unrecognized tag return the input unchanged; `ytd` truncates to January 1
of the latest timestamp's year. -/
def filter_data_by_period (df : List Tick) (period : String) : List Tick :=
  if period = "all" then df
  else
    let latest := latest_date df
    let start? : Option ℚ :=
      if period = "1w" then some (latest - 7)
      else if period = "1m" then some (latest - 30)
      else if period = "3m" then some (latest - 90)
      else if period = "6m" then some (latest - 180)
      else if period = "1y" then some (latest - 365)
      else if period = "ytd" then some ((days_from_civil (year_of latest) 1 1 : ℤ) : ℚ)
      else if period = "2y" then some (latest - 2 * 365)
      else if period = "3y" then some (latest - 3 * 365)
      else if period = "4y" then some (latest - 4 * 365)
      else if period = "5y" then some (latest - 5 * 365)
      else if period = "6y" then some (latest - 6 * 365)
      else if period = "7y" then some (latest - 7 * 365)
      else if period = "8y" then some (latest - 8 * 365)
      else if period = "9y" then some (latest - 9 * 365)
      else if period = "10y" then some (latest - 10 * 365)
      else none
    match start? with
    | none => df
    | some start => df.filter (fun tk => decide (start ≤ tk.t))

/-- The modal value of a list: the value with the greatest multiplicity,
ties broken towards the smallest value (pandas `Series.mode()` returns its
result sorted ascending and the source takes `.iloc[0]`). -/
def mode_of (l : List ℚ) : ℚ :=
  match l with
  | [] => 0
  | x :: xs =>
    (x :: xs).foldl (fun best y =>
      let cb := l.count best
      let cy := l.count y
      if cb < cy ∨ (cb = cy ∧ y < best) then y else best) x

/-- Consecutive timestamp deltas of a frame, in seconds (timestamps are in
days, hence the factor 86400). -/
def time_diffs_seconds (df : List Tick) : List ℚ :=
  (df.zip df.tail).map (fun p => (p.2.t - p.1.t) * 86400)

/-- Function `determine_frequency`: a truthy override wins; otherwise classify the
modal consecutive delta as daily/hourly within a 5% tolerance, defaulting
to hourly. -/
def determine_frequency (df : List Tick) (override_freq : Option String) : String :=
  let detect :=
    let ds := time_diffs_seconds df
    if ds = [] then "1H"
    else
      let m := mode_of ds
      if 86400 * (95 / 100 : ℚ) ≤ m ∧ m ≤ 86400 * (105 / 100 : ℚ) then "1D"
      else if 3600 * (95 / 100 : ℚ) ≤ m ∧ m ≤ 3600 * (105 / 100 : ℚ) then "1H"
      else "1H"
  match override_freq with
  | some f => if f = "" then detect else f
  | none => detect

/-- Tail of pandas `ewm(span, adjust=False).mean()`: each output is
`alpha * x + (1 - alpha) * previous`. -/
def ewm_unadjusted_from (alpha : ℚ) (prev : ℚ) : List ℚ → List ℚ
  | [] => []
  | x :: xs =>
    let cur := alpha * x + (1 - alpha) * prev
    cur :: ewm_unadjusted_from alpha cur xs

/-- pandas `ewm(span, adjust=False).mean()`: seeded by the first
observation, then the plain exponential recursion. -/
def ewm_mean_unadjusted (alpha : ℚ) : List ℚ → List ℚ
  | [] => []
  | x :: xs => x :: ewm_unadjusted_from alpha x xs

/-- Function `transform.ema`: `series.ewm(span=period, adjust=False).mean()`, where
pandas derives the smoothing factor `2 / (span + 1)` from the span. -/
def ema (s : List ℚ) (period : ℕ) : List ℚ :=
  ewm_mean_unadjusted (2 / ((period : ℚ) + 1)) s

/-- Numerator/denominator recursion behind pandas
`ewm(span).mean()` with the default `adjust=True`: the output at `t` is
`(sum of (1-alpha)^j * x_(t-j)) / (sum of (1-alpha)^j)` for `j = 0..t`. -/
def ewm_adjusted_go (w : ℚ) (num den : ℚ) : List ℚ → List ℚ
  | [] => []
  | x :: xs =>
    let num' := w * num + x
    let den' := w * den + 1
    (num' / den') :: ewm_adjusted_go w num' den' xs

/-- pandas `ewm(span=p).mean()` (default `adjust=True`), as used by the
crossover signal generators. -/
def ewm_mean_adjusted (alpha : ℚ) (s : List ℚ) : List ℚ :=
  ewm_adjusted_go (1 - alpha) 0 0 s

/-- The ema-kind moving average of `generate_crossover_signals`:
`series.ewm(span=p).mean()` with pandas' default `adjust=True`. -/
def crossover_ema (s : List ℚ) (p : ℕ) : List ℚ :=
  ewm_mean_adjusted (2 / ((p : ℚ) + 1)) s

/-- Pandas `rolling(window=p, min_periods=1).mean()`: the mean of the last `p`
values, or of however many are available near the start. -/
def sma (s : List ℚ) (p : ℕ) : List ℚ :=
  (List.range s.length).map (fun i =>
    let k := min p (i + 1)
    (((List.range k).map (fun j => s.getD (i - j) 0)).sum) / (k : ℚ))

/-- Pandas `rolling(window=p).mean()` without `min_periods` (multi-dataset MAs):
`none` (NaN) until a full window of `p` values is available. -/
def sma_full (s : List ℚ) (p : ℕ) : List (Option ℚ) :=
  (List.range s.length).map (fun i =>
    if p ≤ i + 1 then
      some ((((List.range p).map (fun j => s.getD (i - j) 0)).sum) / (p : ℚ))
    else none)

/-- Threshold entry column: `(series.shift(1) < th) & (series >= th)`,
with the NaN produced by `shift` at index 0 comparing as false. -/
def threshold_entries (s : List ℚ) (th : ℚ) : List Bool :=
  (List.range s.length).map (fun i =>
    match i with
    | 0 => false
    | j + 1 => decide (s.getD j 0 < th) && decide (th ≤ s.getD (j + 1) 0))

/-- Threshold exit column: `(series.shift(1) > th) & (series <= th)`. -/
def threshold_exits (s : List ℚ) (th : ℚ) : List Bool :=
  (List.range s.length).map (fun i =>
    match i with
    | 0 => false
    | j + 1 => decide (th < s.getD j 0) && decide (s.getD (j + 1) 0 ≤ th))

/-- Engine-level error taxonomy (`ValueError` sites in the source). -/
inductive BacktestError where
  | emptyPeriod (period : String)
  | invalidStrategy (strategyType : String)
  | columnNotFound (column : String)
  deriving DecidableEq, Repr

/-- Column selection `df[fap_transformed]` for `apply_to` in `{v, usd}`;
any other tag raises the column-not-found `ValueError`. -/
def signal_series (df : List Tick) (apply_to : String) : Except BacktestError (List ℚ) :=
  if apply_to = "v" then .ok (df.map (·.vTransformed))
  else if apply_to = "usd" then .ok (df.map (·.usdTransformed))
  else .error (.columnNotFound apply_to)

/-- Function `generate_threshold_signals`: entry/exit threshold crossings on the
chosen transformed column, NaNs filled with false. -/
def generate_threshold_signals (df : List Tick) (threshold_entry threshold_exit : ℚ)
    (apply_to : String) : Except BacktestError (List Bool × List Bool) :=
  (signal_series df apply_to).map (fun s =>
    (threshold_entries s threshold_entry, threshold_exits s threshold_exit))

/-- Configuration of the single-series crossover strategy. -/
structure CrossoverStrategy where
  entryType : String
  entryFastPeriod : ℕ
  entrySlowPeriod : ℕ
  exitType : String
  exitFastPeriod : ℕ
  exitSlowPeriod : ℕ
  entryDirection : String
  exitDirection : String
  deriving DecidableEq, Repr

/-- Upward cross of `fast` over `slow`:
`(fast > slow) & (fast.shift(1) <= slow.shift(1))`; index 0 compares a
shifted NaN and is false. -/
def cross_up (fast slow : List ℚ) : List Bool :=
  (List.range fast.length).map (fun i =>
    match i with
    | 0 => false
    | j + 1 =>
      decide (slow.getD (j + 1) 0 < fast.getD (j + 1) 0) &&
      decide (fast.getD j 0 ≤ slow.getD j 0))

/-- Downward cross of `fast` under `slow`:
`(fast < slow) & (fast.shift(1) >= slow.shift(1))`. -/
def cross_down (fast slow : List ℚ) : List Bool :=
  (List.range fast.length).map (fun i =>
    match i with
    | 0 => false
    | j + 1 =>
      decide (fast.getD (j + 1) 0 < slow.getD (j + 1) 0) &&
      decide (slow.getD j 0 ≤ fast.getD j 0))

/-- Fast/slow moving-average pair: `sma` with `min_periods=1` for kind
`sma`, else the adjusted ema. -/
def ma_pair (kind : String) (fastP slowP : ℕ) (s : List ℚ) : List ℚ × List ℚ :=
  if kind = "sma" then (sma s fastP, sma s slowP)
  else (crossover_ema s fastP, crossover_ema s slowP)

/-- Function `generate_crossover_signals`: independently configured fast/slow MA
pairs and directions for entry and exit on the chosen transformed column. -/
def generate_crossover_signals (df : List Tick) (apply_to : String)
    (cs : CrossoverStrategy) : Except BacktestError (List Bool × List Bool) :=
  (signal_series df apply_to).map (fun s =>
    let ep := ma_pair cs.entryType cs.entryFastPeriod cs.entrySlowPeriod s
    let xp := ma_pair cs.exitType cs.exitFastPeriod cs.exitSlowPeriod s
    let entries := if cs.entryDirection = "up" then cross_up ep.1 ep.2 else cross_down ep.1 ep.2
    let exits := if cs.exitDirection = "up" then cross_up xp.1 xp.2 else cross_down xp.1 xp.2
    (entries, exits))

/-- Configuration of the multi-dataset crossover strategy, with the
take-profit / stop-loss block. -/
structure MultiStrategy where
  dataset1Indicator : String
  dataset1MaType : String
  dataset1MaPeriod : ℕ
  dataset2Indicator : String
  dataset2MaType : String
  dataset2MaPeriod : ℕ
  entryDirection : String
  exitDirection : String
  useTakeProfit : Bool
  useStopLoss : Bool
  takeProfitPct : ℚ
  stopLossPct : ℚ
  deriving DecidableEq, Repr

/-- The TP/SL trigger test at one bar, in the source's evaluation order:
take-profit first (percentage gain reaching the threshold), then stop-loss
(percentage drop reaching the threshold); either one forces the exit. -/
def tpsl_hit (useTP useSL : Bool) (tp sl entryPrice price : ℚ) : Bool :=
  let chg := (price - entryPrice) / entryPrice
  (useTP && decide (tp ≤ chg)) || (useSL && decide (chg ≤ -sl))

/-- The inner scan of `apply_take_profit_stop_loss`: walk bars
`start, start+1, ...` strictly below `stop`, breaking off at the end of the
price array, and return the first bar whose TP/SL test fires. -/
def tpsl_scan (prices : List ℚ) (entryPrice : ℚ) (useTP useSL : Bool)
    (tp sl : ℚ) (start stop : ℕ) : Option ℕ :=
  (List.range' start (min stop prices.length - start)).find?
    (fun i => tpsl_hit useTP useSL tp sl entryPrice (prices.getD i 0))

/-- End of the scan window for an entry at `e`: the first natural exit
signal at index `e` or beyond, or the end of the price array if there is
none (`exits[entry_idx:]` is an inclusive label slice in the source). -/
def next_exit_end (exits : List Bool) (prices : List ℚ) (e : ℕ) : ℕ :=
  match (List.range' e (exits.length - e)).find? (fun j => exits.getD j false) with
  | some j => j
  | none => prices.length

/-- Function `apply_take_profit_stop_loss`: for every entry position, scan forward
from the bar after the entry up to the next natural exit (computed on the
original exit series) and force the exit at the first TP/SL trigger.  The
percentage parameters arrive as percentages and are divided by 100. -/
def apply_take_profit_stop_loss (prices : List ℚ) (entries exits : List Bool)
    (takeProfitPct stopLossPct : ℚ) (useTP useSL : Bool) : List Bool :=
  let tp := takeProfitPct / 100
  let sl := stopLossPct / 100
  let entryPositions := (List.range entries.length).filter (fun e => entries.getD e false)
  entryPositions.foldl (fun mex e =>
    match tpsl_scan prices (prices.getD e 0) useTP useSL tp sl (e + 1)
        (next_exit_end exits prices e) with
    | some i => mex.set i true
    | none => mex) exits

/-- Raw column access `df[indicator]` for the multi-dataset strategy
(`v` or `usd`, untransformed); others raise a key error. -/
def raw_column (df : List Tick) (c : String) : Except BacktestError (List ℚ) :=
  if c = "v" then .ok (df.map (·.v))
  else if c = "usd" then .ok (df.map (·.usd))
  else .error (.columnNotFound c)

/-- The multi-dataset moving average: full-window `rolling` mean (NaN until
`p` values accumulate) for kind `sma`, else the adjusted ema (no NaN). -/
def multi_ma (s : List ℚ) (kind : String) (p : ℕ) : List (Option ℚ) :=
  if kind = "sma" then sma_full s p
  else (crossover_ema s p).map some

/-- Strict less-than on optional values; any comparison with NaN is false. -/
def olt (a b : Option ℚ) : Bool :=
  match a, b with
  | some x, some y => decide (x < y)
  | _, _ => false

/-- Less-or-equal on optional values; any comparison with NaN is false. -/
def ole (a b : Option ℚ) : Bool :=
  match a, b with
  | some x, some y => decide (x ≤ y)
  | _, _ => false

/-- Upward cross of `ma1` over `ma2` on NaN-carrying series. -/
def ocross_up (m1 m2 : List (Option ℚ)) : List Bool :=
  (List.range m1.length).map (fun i =>
    match i with
    | 0 => false
    | j + 1 =>
      olt (m2.getD (j + 1) none) (m1.getD (j + 1) none) &&
      ole (m1.getD j none) (m2.getD j none))

/-- Downward cross of `ma1` under `ma2` on NaN-carrying series. -/
def ocross_down (m1 m2 : List (Option ℚ)) : List Bool :=
  (List.range m1.length).map (fun i =>
    match i with
    | 0 => false
    | j + 1 =>
      olt (m1.getD (j + 1) none) (m2.getD (j + 1) none) &&
      ole (m2.getD j none) (m1.getD j none))

/-- Function `generate_multi_dataset_crossover_signals_impl`: one moving average per
dataset, ordinal alignment by truncation to the shorter one, directional
crossings, then the optional TP/SL pass over the raw price column. -/
def generate_multi_dataset_crossover_signals_impl (df1 df2 price_df : List Tick)
    (st : MultiStrategy) : Except BacktestError (List Bool × List Bool) :=
  match raw_column df1 st.dataset1Indicator with
  | .error e => .error e
  | .ok s1 =>
    match raw_column df2 st.dataset2Indicator with
    | .error e => .error e
    | .ok s2 =>
      let ma1 := multi_ma s1 st.dataset1MaType st.dataset1MaPeriod
      let ma2 := multi_ma s2 st.dataset2MaType st.dataset2MaPeriod
      let n := min ma1.length ma2.length
      let ma1a := ma1.take n
      let ma2a := ma2.take n
      let entries := if st.entryDirection = "up" then ocross_up ma1a ma2a
                     else ocross_down ma1a ma2a
      let exits := if st.exitDirection = "up" then ocross_up ma1a ma2a
                   else ocross_down ma1a ma2a
      let exits2 :=
        if st.useTakeProfit || st.useStopLoss then
          apply_take_profit_stop_loss (price_df.map (·.usd)) entries exits
            st.takeProfitPct st.stopLossPct st.useTakeProfit st.useStopLoss
        else exits
      .ok (entries, exits2)

/-- Function `generate_multi_dataset_crossover_signals` (the placeholder reached via
`generate_signals`): all-false signal columns of the frame's length. -/
def generate_multi_dataset_crossover_signals (df : List Tick) :
    List Bool × List Bool :=
  (List.replicate df.length false, List.replicate df.length false)

/-- Function `generate_signals`: dispatch on the strategy discriminant; a missing or
mismatched configuration raises the invalid-strategy `ValueError`. -/
def generate_signals (df : List Tick) (threshold_entry threshold_exit : ℚ)
    (apply_to : String) (strategy_type : String)
    (crossover_strategy : Option CrossoverStrategy)
    (multi_dataset_crossover_strategy : Option MultiStrategy) :
    Except BacktestError (List Bool × List Bool) :=
  if strategy_type = "threshold" then
    generate_threshold_signals df threshold_entry threshold_exit apply_to
  else
    match strategy_type, crossover_strategy, multi_dataset_crossover_strategy with
    | "crossover", some cs, _ => generate_crossover_signals df apply_to cs
    | "multi_dataset_crossover", _, some _ =>
      .ok (generate_multi_dataset_crossover_signals df)
    | st, _, _ => .error (.invalidStrategy st)

/-- A Python float: a finite rational or one of the non-finite values. -/
inductive ExtFloat where
  | finite (q : ℚ)
  | nan
  | posInf
  | negInf
  deriving DecidableEq, Repr

/-- Whether a float is an ordinary finite number. -/
def is_finite : ExtFloat → Bool
  | .finite _ => true
  | _ => false

/-- Helper `safe_float` in `calculate_metrics`: NaN and infinities collapse to
`0.0`, finite values pass through. -/
def safe_float : ExtFloat → ExtFloat
  | .finite q => .finite q
  | _ => .finite 0

/-- The scalar statistics the engine reads off the external vectorbt
portfolio object. -/
structure PortfolioOut where
  totalReturn : ExtFloat
  sharpe : ExtFloat
  maxDrawdown : ExtFloat
  tradesCount : ℕ
  deriving DecidableEq, Repr

/-- Function `calculate_buy_and_hold_return`: `(last - first) / first` on the raw
price column, `0` for series shorter than two rows. -/
def calculate_buy_and_hold_return (df : List Tick) : ℚ :=
  if df.length < 2 then 0
  else
    let prices := df.map (·.usd)
    let initial := prices.headD 0
    let final := prices.getLastD 0
    (final - initial) / initial

/-- Function `calculate_trades_only_return` on a finite portfolio total return:
the multiplicative residual over buy-and-hold, with the division-by-zero
guard when buy-and-hold is exactly -1. -/
def calculate_trades_only_return (total_return : ℚ) (df : List Tick) : ℚ :=
  let bh := calculate_buy_and_hold_return df
  if bh = -1 then total_return
  else (1 + total_return) / (1 + bh) - 1

/-- Lift of `calculate_trades_only_return` to floats: a non-finite
portfolio return propagates (as some non-finite float) and is caught by
`safe_float` downstream. -/
def trades_only_float (total_return : ExtFloat) (df : List Tick) : ExtFloat :=
  match total_return with
  | .finite q => .finite (calculate_trades_only_return q df)
  | x => x

/-- The scalar block of a `BacktestResult` (`results` plus the `freq`
annotation; the equity-curve and trade-list serialization commute with
nothing the claims mention and are projections of the external portfolio
object). -/
structure CalcResults where
  totalReturn : ExtFloat
  sharpe : ExtFloat
  maxDrawdown : ExtFloat
  tradesCount : ℕ
  buyAndHoldReturn : ExtFloat
  tradesOnlyReturn : ExtFloat
  freq : String
  deriving DecidableEq, Repr

/-- Function `calculate_metrics`: read the portfolio statistics, recompute
buy-and-hold and trades-only returns from the frame, re-detect the
frequency without any override, and normalize every scalar through
`safe_float`. -/
def calculate_metrics (port : PortfolioOut) (df : List Tick) : CalcResults :=
  let bh := calculate_buy_and_hold_return df
  let tor := trades_only_float port.totalReturn df
  { totalReturn := safe_float port.totalReturn
    sharpe := safe_float port.sharpe
    maxDrawdown := safe_float port.maxDrawdown
    tradesCount := port.tradesCount
    buyAndHoldReturn := safe_float (.finite bh)
    tradesOnlyReturn := safe_float tor
    freq := determine_frequency df none }

/-- The keyword settings handed to `vbt.Portfolio.from_signals`. -/
structure VbtSettings where
  close : List ℚ
  entries : List Bool
  exits : List Bool
  fees : ℚ
  slippage : ℚ
  initCash : ℚ
  freq : String
  accumulate : Bool
  uponLongConflict : String
  uponShortConflict : String
  deriving DecidableEq, Repr

/-- What a backtest run produces: the settings passed to the external
simulator together with the metrics block returned to the caller. -/
structure RunOutput where
  settings : VbtSettings
  results : CalcResults
  deriving DecidableEq, Repr

/-- Function `run_backtest`: filter by period (failing on an empty result), detect
the frequency with the caller's override, generate signals, hand the
arrays to the external portfolio simulator, and compute the metrics block. -/
def run_backtest (df : List Tick) (threshold_entry threshold_exit : ℚ)
    (fees slippage init_cash : ℚ) (apply_to : String)
    (override_freq : Option String) (strategy_type : String)
    (crossover_strategy : Option CrossoverStrategy)
    (multi_dataset_crossover_strategy : Option MultiStrategy)
    (period : String) (port_of : VbtSettings → PortfolioOut) :
    Except BacktestError RunOutput :=
  let df_filtered := filter_data_by_period df period
  if df_filtered = [] then .error (.emptyPeriod period)
  else
    let freq := determine_frequency df_filtered override_freq
    match generate_signals df_filtered threshold_entry threshold_exit apply_to
        strategy_type crossover_strategy multi_dataset_crossover_strategy with
    | .error e => .error e
    | .ok signals =>
      let settings : VbtSettings :=
        { close := df_filtered.map (·.usdTransformed)
          entries := signals.1
          exits := signals.2
          fees := fees
          slippage := slippage
          initCash := init_cash
          freq := freq
          accumulate := false
          uponLongConflict := "ignore"
          uponShortConflict := "ignore" }
      .ok ⟨settings, calculate_metrics (port_of settings) df_filtered⟩

/-- Function `run_multi_dataset_backtest`: filter all three frames (failing if any
is empty), detect the frequency from the filtered price frame, build the
cross-dataset signals, align everything to the shortest length, run the
external simulator and compute metrics on the aligned price frame. -/
def run_multi_dataset_backtest (df1 df2 price_df : List Tick)
    (st : MultiStrategy) (fees slippage init_cash : ℚ) (period : String)
    (port_of : VbtSettings → PortfolioOut) : Except BacktestError RunOutput :=
  let df1f := filter_data_by_period df1 period
  let df2f := filter_data_by_period df2 period
  let pricef := filter_data_by_period price_df period
  if df1f = [] ∨ df2f = [] ∨ pricef = [] then .error (.emptyPeriod period)
  else
    let freq := determine_frequency pricef none
    match generate_multi_dataset_crossover_signals_impl df1f df2f pricef st with
    | .error e => .error e
    | .ok signals =>
      let n := min pricef.length signals.1.length
      let settings : VbtSettings :=
        { close := (pricef.map (·.usd)).take n
          entries := signals.1.take n
          exits := signals.2.take n
          fees := fees
          slippage := slippage
          initCash := init_cash
          freq := freq
          accumulate := false
          uponLongConflict := "ignore"
          uponShortConflict := "ignore" }
      .ok ⟨settings, calculate_metrics (port_of settings) (pricef.take n)⟩

lemma getD_range_map {α : Type} (f : ℕ → α) (n i : ℕ) (d : α) :
    ((List.range n).map f).getD i d = if i < n then f i else d := by
  by_cases h : i < n
  · rw [List.getD_eq_getElem?_getD, List.getElem?_map, List.getElem?_range h]
    simp [h]
  · rw [List.getD_eq_getElem?_getD, List.getElem?_eq_none]
    · simp [h]
    · simpa using Nat.le_of_not_lt h

lemma getD_set_true (l : List Bool) (i j : ℕ) (h : i < l.length) :
    (l.set i true).getD j false = if j = i then true else l.getD j false := by
  by_cases hj : j = i
  · subst hj
    rw [List.getD_eq_getElem?_getD, List.getElem?_set_eq_of_lt _ h]
    simp
  · rw [List.getD_eq_getElem?_getD, List.getElem?_set_ne (fun hh => hj hh.symm)]
    simp [hj, List.getD_eq_getElem?_getD]

lemma any_of_filter (p q : ℕ → Bool) (l : List ℕ) :
    (l.filter p).any q = l.any (fun x => p x && q x) := by
  induction l with
  | nil => rfl
  | cons a as ih => by_cases h : p a <;> simp [List.filter_cons, h, ih]

lemma filter_not_recognized (df : List Tick) (p : String)
    (h : p ∉ recognized_period_tags) : filter_data_by_period df p = df := by
  simp only [recognized_period_tags, List.mem_cons, List.not_mem_nil, or_false,
    not_or] at h
  obtain ⟨h1, h2, h3, h4, h5, h6, h7, h8, h9, h10, h11, h12, h13, h14, h15, h16⟩ := h
  simp [filter_data_by_period, h1, h2, h3, h4, h5, h6, h7, h8, h9, h10, h11,
    h12, h13, h14, h15, h16]

/-- Claim C3: for the threshold strategy on the chosen transformed series
`s`, entries at `i ≥ 1` are upward crossings of the entry threshold and
exits are downward crossings of the exit threshold, and both signals are
false at index 0, which has no predecessor. -/
theorem threshold_signal_formula (df : List Tick) (threshold_entry threshold_exit : ℚ)
    (apply_to : String) (s : List ℚ) (ents exs : List Bool)
    (hs : signal_series df apply_to = .ok s)
    (hg : generate_threshold_signals df threshold_entry threshold_exit apply_to
            = .ok (ents, exs)) :
    ents.getD 0 false = false ∧ exs.getD 0 false = false ∧
    ∀ i, i + 1 < s.length →
      ents.getD (i + 1) false =
        (decide (s.getD i 0 < threshold_entry) &&
         decide (threshold_entry ≤ s.getD (i + 1) 0)) ∧
      exs.getD (i + 1) false =
        (decide (threshold_exit < s.getD i 0) &&
         decide (s.getD (i + 1) 0 ≤ threshold_exit)) := by
  rw [generate_threshold_signals, hs] at hg
  simp only [Except.map] at hg
  obtain ⟨he, hx⟩ : threshold_entries s threshold_entry = ents ∧
      threshold_exits s threshold_exit = exs := by
    cases hg
    exact ⟨rfl, rfl⟩
  subst he
  subst hx
  refine ⟨?_, ?_, ?_⟩
  · rw [threshold_entries, getD_range_map]
    split <;> rfl
  · rw [threshold_exits, getD_range_map]
    split <;> rfl
  · intro i hi
    constructor
    · rw [threshold_entries, getD_range_map, if_pos hi]
    · rw [threshold_exits, getD_range_map, if_pos hi]

/-- Witness for C3 at a concrete frame: on transformed series `[0, 2]`
with both thresholds `1`, index 1 is an entry (upward crossing) and not an
exit, and index 0 carries no signal. -/
theorem threshold_signal_formula_witness :
    (threshold_entries [0, 2] 1).getD 0 false = false ∧
    (threshold_entries [0, 2] 1).getD 1 false = true ∧
    (threshold_exits [0, 2] 1).getD 1 false = false := by
  have h := threshold_signal_formula [⟨0, 0, 0, 0, 0⟩, ⟨1, 0, 0, 2, 0⟩] 1 1 "v"
    [0, 2] (threshold_entries [0, 2] 1) (threshold_exits [0, 2] 1) rfl rfl
  have h0 := h.1
  have h1 := (h.2.2 0 (by norm_num)).1
  have h2 := (h.2.2 0 (by norm_num)).2
  refine ⟨h0, ?_, ?_⟩
  · rw [h1]
    norm_num
  · rw [h2]
    norm_num

/-- Claim C10: every period tag outside the recognized set, including a
tag naming a calendar year, falls through the `elif` chain to the default
branch and leaves the series untouched. -/
theorem filter_unrecognized_tag_id (df : List Tick) (p : String)
    (h : p ∉ recognized_period_tags) : filter_data_by_period df p = df :=
  filter_not_recognized df p h

/-- Witness for C10: the tag `foo` is not recognized and the filter
returns the input unchanged. -/
theorem filter_unrecognized_tag_id_witness :
    filter_data_by_period [⟨0, 0, 0, 0, 0⟩] "foo" = [⟨0, 0, 0, 0, 0⟩] :=
  filter_unrecognized_tag_id _ _ (by decide)

/-- Claim C4, counterexample: with one tick in 2022 and one in 2023, the
filter called with the tag `2023` returns both ticks (the year tag is not
recognized), so the output is not the set of ticks whose year is 2023. -/
theorem filter_year_tag_counterexample :
    filter_data_by_period
        [⟨((days_from_civil 2022 6 1 : ℤ) : ℚ), 0, 0, 0, 0⟩,
         ⟨((days_from_civil 2023 6 1 : ℤ) : ℚ), 0, 0, 0, 0⟩] "2023" =
      [⟨((days_from_civil 2022 6 1 : ℤ) : ℚ), 0, 0, 0, 0⟩,
       ⟨((days_from_civil 2023 6 1 : ℤ) : ℚ), 0, 0, 0, 0⟩] ∧
    (List.any
        (filter_data_by_period
          [⟨((days_from_civil 2022 6 1 : ℤ) : ℚ), 0, 0, 0, 0⟩,
           ⟨((days_from_civil 2023 6 1 : ℤ) : ℚ), 0, 0, 0, 0⟩] "2023")
        (fun tk => decide (year_of tk.t ≠ 2023))) = true := by
  have hid := filter_not_recognized
    [⟨((days_from_civil 2022 6 1 : ℤ) : ℚ), 0, 0, 0, 0⟩,
     ⟨((days_from_civil 2023 6 1 : ℤ) : ℚ), 0, 0, 0, 0⟩] "2023" (by decide)
  refine ⟨hid, ?_⟩
  rw [hid]
  simp only [List.any_cons, List.any_nil, year_of, Int.floor_intCast]
  decide

/-- Claim C4 (amended): a period tag naming a specific calendar year is
not in the recognized set, and the filter returns its input unchanged for
such a tag instead of selecting the ticks of that year. -/
theorem filter_year_tag_id (df : List Tick) (y : ℕ)
    (h : toString y ∉ recognized_period_tags) :
    filter_data_by_period df (toString y) = df :=
  filter_not_recognized df (toString y) h

/-- Witness for the amended C4 at the year tag `2023`. -/
theorem filter_year_tag_id_witness :
    filter_data_by_period [⟨0, 0, 0, 0, 0⟩] (toString 2023) = [⟨0, 0, 0, 0, 0⟩] :=
  filter_year_tag_id _ 2023 (by decide)

/-- Claim C9: whenever period filtering leaves zero rows, both backtest
entry points fail with the empty-period error before any result is built;
neither ever returns an `ok` result for an empty filtered series. -/
theorem empty_period_fails
    (df df1 df2 price_df : List Tick) (threshold_entry threshold_exit : ℚ)
    (fees slippage init_cash : ℚ) (apply_to : String)
    (override_freq : Option String) (strategy_type : String)
    (crossover_strategy : Option CrossoverStrategy)
    (multi_dataset_crossover_strategy : Option MultiStrategy)
    (st : MultiStrategy) (period : String)
    (port_of : VbtSettings → PortfolioOut)
    (h1 : filter_data_by_period df period = [])
    (h2 : filter_data_by_period df1 period = [] ∨
          filter_data_by_period df2 period = [] ∨
          filter_data_by_period price_df period = []) :
    run_backtest df threshold_entry threshold_exit fees slippage init_cash
        apply_to override_freq strategy_type crossover_strategy
        multi_dataset_crossover_strategy period port_of
      = .error (.emptyPeriod period) ∧
    run_multi_dataset_backtest df1 df2 price_df st fees slippage init_cash
        period port_of
      = .error (.emptyPeriod period) := by
  constructor
  · rw [run_backtest, h1]
    simp
  · rw [run_multi_dataset_backtest, if_pos h2]

/-- Witness for C9: the empty frame filters to the empty frame under
`all`, and both entry points report the empty-period error on it. -/
theorem empty_period_fails_witness :
    run_backtest [] 0 0 0 0 0 "v" none "threshold" none none "all"
        (fun _ => ⟨.finite 0, .finite 0, .finite 0, 0⟩)
      = .error (.emptyPeriod "all") ∧
    run_multi_dataset_backtest [] [] []
        ⟨"v", "sma", 1, "v", "sma", 1, "up", "down", false, false, 3, 1⟩
        0 0 0 "all" (fun _ => ⟨.finite 0, .finite 0, .finite 0, 0⟩)
      = .error (.emptyPeriod "all") :=
  empty_period_fails [] [] [] [] 0 0 0 0 0 "v" none "threshold" none none
    ⟨"v", "sma", 1, "v", "sma", 1, "up", "down", false, false, 3, 1⟩ "all"
    (fun _ => ⟨.finite 0, .finite 0, .finite 0, 0⟩)
    (by simp [filter_data_by_period]) (Or.inl (by simp [filter_data_by_period]))

/-- Claim C8: every scalar metric in the returned block passes through
`safe_float`, so whatever non-finite values the external portfolio object
produces, the caller only ever sees finite numbers. -/
theorem metrics_always_finite (port : PortfolioOut) (df : List Tick) :
    is_finite (calculate_metrics port df).totalReturn = true ∧
    is_finite (calculate_metrics port df).sharpe = true ∧
    is_finite (calculate_metrics port df).maxDrawdown = true ∧
    is_finite (calculate_metrics port df).buyAndHoldReturn = true ∧
    is_finite (calculate_metrics port df).tradesOnlyReturn = true := by
  obtain ⟨tr, sh, md, n⟩ := port
  cases tr <;> cases sh <;> cases md <;>
    simp [calculate_metrics, safe_float, is_finite, trades_only_float]

/-- Claim C7: the trades-only return is the multiplicative residual of the
strategy return over buy-and-hold, with the exact `-1` guard falling back
to the total return; away from the guard it satisfies the decomposition
`(1 + buy_and_hold) * (1 + trades_only) = 1 + total`. -/
theorem trades_only_return_formula (total_return : ℚ) (df : List Tick) :
    calculate_trades_only_return total_return df =
      (if calculate_buy_and_hold_return df = -1 then total_return
       else (1 + total_return) / (1 + calculate_buy_and_hold_return df) - 1) ∧
    (calculate_buy_and_hold_return df = -1 ∨
      (1 + calculate_buy_and_hold_return df) *
        (1 + calculate_trades_only_return total_return df) = 1 + total_return) := by
  constructor
  · rfl
  · by_cases hbh : calculate_buy_and_hold_return df = -1
    · exact Or.inl hbh
    · refine Or.inr ?_
      have hne : 1 + calculate_buy_and_hold_return df ≠ 0 := by
        intro hz
        apply hbh
        linarith
      rw [calculate_trades_only_return]
      simp only [hbh, if_false]
      field_simp

/-- Claim C1, counterexample: a single-series crossover strategy whose
entry and exit use the same MA pair and direction fires both signals at the
same index, and the returned series keeps `exits[1] = true` — no
entry-wins tie-break is applied by the signal generator. -/
theorem signal_tie_break_counterexample :
    (match generate_crossover_signals [⟨0, 0, 0, 0, 0⟩, ⟨1, 0, 0, 0, 2⟩] "usd"
        ⟨"sma", 1, 2, "sma", 1, 2, "up", "up"⟩ with
     | .ok p => p.1.getD 1 false = true ∧ p.2.getD 1 false = true
     | .error _ => False) := by
  have hs : signal_series [⟨0, 0, 0, 0, 0⟩, ⟨1, 0, 0, 0, 2⟩] "usd" = .ok [0, 2] := by
    simp [signal_series]
  have h1 : sma [0, 2] 1 = [0, 2] := by norm_num [sma, List.range_succ]
  have h2 : sma [0, 2] 2 = [0, 1] := by norm_num [sma, List.range_succ]
  have h3 : cross_up [0, 2] [0, 1] = [false, true] := by
    norm_num [cross_up, List.range_succ]
  simp only [generate_crossover_signals, hs, Except.map, ma_pair]
  simp only [reduceIte, h1, h2, h3]
  simp

/-- Claim C1 (amended): the signal generator applies no entry-wins
post-processing.  For the threshold family the raw entry and exit
conditions are mutually exclusive, so entries and exits are still never
simultaneously true; for the crossover families both conditions can fire
at one index and the returned series then carries both flags (conflict
resolution is deferred to the simulator's conflict settings). -/
theorem signal_tie_break_behavior :
    (∀ (s : List ℚ) (threshold_entry threshold_exit : ℚ) (i : ℕ),
      ((threshold_entries s threshold_entry).getD i false &&
       (threshold_exits s threshold_exit).getD i false) = false) ∧
    (match generate_crossover_signals [⟨0, 0, 0, 0, 0⟩, ⟨1, 0, 0, 0, 2⟩] "usd"
        ⟨"sma", 1, 2, "sma", 1, 2, "up", "up"⟩ with
     | .ok p => (p.1.getD 1 false && p.2.getD 1 false) = true
     | .error _ => False) := by
  constructor
  · intro s the thx i
    rw [threshold_entries, threshold_exits, getD_range_map, getD_range_map]
    by_cases h : i < s.length
    · rw [if_pos h, if_pos h]
      cases i with
      | zero => rfl
      | succ j =>
        rw [Bool.eq_false_iff]
        intro hcontra
        rw [Bool.and_eq_true, Bool.and_eq_true, Bool.and_eq_true] at hcontra
        simp only [decide_eq_true_eq] at hcontra
        obtain ⟨⟨h1, h2⟩, h3, h4⟩ := hcontra
        linarith
    · rw [if_neg h, if_neg h]
      rfl
  · have hs : signal_series [⟨0, 0, 0, 0, 0⟩, ⟨1, 0, 0, 0, 2⟩] "usd" = .ok [0, 2] := by
      simp [signal_series]
    have h1 : sma [0, 2] 1 = [0, 2] := by norm_num [sma, List.range_succ]
    have h2 : sma [0, 2] 2 = [0, 1] := by norm_num [sma, List.range_succ]
    have h3 : cross_up [0, 2] [0, 1] = [false, true] := by
      norm_num [cross_up, List.range_succ]
    simp only [generate_crossover_signals, hs, Except.map, ma_pair]
    simp only [reduceIte, h1, h2, h3]
    simp

lemma ewm_unadjusted_from_step (alpha : ℚ) :
    ∀ (xs : List ℚ) (prev : ℚ) (i : ℕ), i + 1 < xs.length →
      (ewm_unadjusted_from alpha prev xs).getD (i + 1) 0 =
        alpha * xs.getD (i + 1) 0 +
        (1 - alpha) * (ewm_unadjusted_from alpha prev xs).getD i 0 := by
  intro xs
  induction xs with
  | nil =>
    intro prev i h
    simp at h
  | cons x xs ih =>
    intro prev i h
    cases i with
    | zero =>
      cases xs with
      | nil => simp at h
      | cons y ys => simp [ewm_unadjusted_from]
    | succ k =>
      have h' : k + 1 < xs.length := by simpa using h
      have hstep := ih (alpha * x + (1 - alpha) * prev) k h'
      simp only [ewm_unadjusted_from, List.getD_cons_succ]
      exact hstep

/-- Claim C6 (amended): the Transform Engine's `ema` (pandas
`adjust=False`) satisfies the claimed recursion seeded by the first
observation with smoothing factor `2/(p+1)`, but the crossover
strategies' ema moving averages use pandas' default adjusted weighting,
which violates that recursion already on the series `[0, 1]` with
period 2. -/
theorem ema_recursion_and_adjusted_divergence :
    (∀ (s : List ℚ) (p : ℕ), 1 ≤ p →
      (s ≠ [] → (ema s p).getD 0 0 = s.getD 0 0) ∧
      (∀ i, i + 1 < s.length →
        (ema s p).getD (i + 1) 0 =
          (2 / ((p : ℚ) + 1)) * s.getD (i + 1) 0 +
          (1 - 2 / ((p : ℚ) + 1)) * (ema s p).getD i 0)) ∧
    ((crossover_ema [0, 1] 2).getD 1 0 ≠
      (2 / ((2 : ℚ) + 1)) * (1 : ℚ) +
      (1 - 2 / ((2 : ℚ) + 1)) * (crossover_ema [0, 1] 2).getD 0 0) := by
  constructor
  · intro s p _
    constructor
    · intro hne
      cases s with
      | nil => exact absurd rfl hne
      | cons x xs => simp [ema, ewm_mean_unadjusted]
    · intro i hi
      cases s with
      | nil => simp at hi
      | cons x xs =>
        cases i with
        | zero =>
          cases xs with
          | nil => simp at hi
          | cons y ys => simp [ema, ewm_mean_unadjusted, ewm_unadjusted_from]
        | succ k =>
          have h' : k + 1 < xs.length := by simpa using hi
          have hstep := ewm_unadjusted_from_step (2 / ((p : ℚ) + 1)) xs x k h'
          simp only [ema, ewm_mean_unadjusted, List.getD_cons_succ]
          exact hstep
  · norm_num [crossover_ema, ewm_mean_adjusted, ewm_adjusted_go]

/-- Witness for the amended C6: for `p = 2` on the series `[1, 3]` the
transform `ema` evaluates to `[1, 7/3]` via the recursion. -/
theorem ema_recursion_witness :
    (ema [1, 3] 2).getD 0 0 = 1 ∧ (ema [1, 3] 2).getD 1 0 = 7 / 3 := by
  have h := ema_recursion_and_adjusted_divergence.1 [1, 3] 2 (by norm_num)
  have h0 := h.1 (by simp)
  have h1 := h.2 0 (by norm_num)
  rw [List.getD_cons_zero] at h0
  constructor
  · exact h0
  · rw [h1, h0]
    norm_num

/-- Claim C6, counterexample: the single-series crossover's ema moving
average (pandas `ewm(span=2)` with the default adjusted weighting) on the
input `[0, 1]` does not satisfy the claimed recursion
`ema[1] = a*s[1] + (1-a)*ema[0]` with `a = 2/(2+1)`: its value at index 1
is `3/4`, not `2/3`. -/
theorem ema_adjusted_counterexample :
    (crossover_ema [0, 1] 2).getD 1 0 ≠
      (2 / ((2 : ℚ) + 1)) * (1 : ℚ) +
      (1 - 2 / ((2 : ℚ) + 1)) * (crossover_ema [0, 1] 2).getD 0 0 := by
  norm_num [crossover_ema, ewm_mean_adjusted, ewm_adjusted_go]

/-- Claim C5 (amended): when a non-empty frequency override is supplied,
the settings handed to the external simulator (which parameterize
annualization) carry the override, but the `freq` annotation on the
returned result block is re-detected from the filtered data without the
override. -/
theorem freq_override_partial_win (df : List Tick)
    (threshold_entry threshold_exit fees slippage init_cash : ℚ)
    (apply_to : String) (f : String) (strategy_type : String)
    (cs : Option CrossoverStrategy) (ms : Option MultiStrategy)
    (period : String) (port_of : VbtSettings → PortfolioOut) (out : RunOutput)
    (hf : f ≠ "")
    (h : run_backtest df threshold_entry threshold_exit fees slippage init_cash
          apply_to (some f) strategy_type cs ms period port_of = .ok out) :
    out.settings.freq = f ∧
    out.results.freq = determine_frequency (filter_data_by_period df period) none := by
  simp only [run_backtest] at h
  split at h
  · exact Except.noConfusion h
  · split at h
    · exact Except.noConfusion h
    · cases h
      constructor
      · simp [determine_frequency, hf]
      · simp [calculate_metrics]

lemma run_backtest_override_eval :
    run_backtest [⟨0, 0, 1, 0, 1⟩, ⟨1/24, 0, 1, 0, 1⟩] 0 0 0 0 0 "v"
        (some "1D") "threshold" none none "all"
        (fun _ => ⟨.finite 0, .finite 0, .finite 0, 0⟩)
      = .ok ⟨⟨[1, 1], [false, false], [false, false], 0, 0, 0, "1D", false,
              "ignore", "ignore"⟩,
             ⟨.finite 0, .finite 0, .finite 0, 0, .finite 0, .finite 0, "1H"⟩⟩ := by
  have hflt : filter_data_by_period [⟨0, 0, 1, 0, 1⟩, ⟨(1 : ℚ)/24, 0, 1, 0, 1⟩] "all"
      = [⟨0, 0, 1, 0, 1⟩, ⟨(1 : ℚ)/24, 0, 1, 0, 1⟩] := by
    simp [filter_data_by_period]
  have hsig : generate_signals [⟨0, 0, 1, 0, 1⟩, ⟨(1 : ℚ)/24, 0, 1, 0, 1⟩] 0 0 "v"
      "threshold" none none = .ok ([false, false], [false, false]) := by
    norm_num [generate_signals, generate_threshold_signals, signal_series,
      Except.map, threshold_entries, threshold_exits, List.range_succ]
  have hdet : determine_frequency [⟨0, 0, 1, 0, 1⟩, ⟨(1 : ℚ)/24, 0, 1, 0, 1⟩] none
      = "1H" := by
    norm_num [determine_frequency, time_diffs_seconds, mode_of]
  have hovr : determine_frequency [⟨0, 0, 1, 0, 1⟩, ⟨(1 : ℚ)/24, 0, 1, 0, 1⟩]
      (some "1D") = "1D" := by
    simp [determine_frequency]
  have hmet : calculate_metrics ⟨.finite 0, .finite 0, .finite 0, 0⟩
      [⟨0, 0, 1, 0, 1⟩, ⟨(1 : ℚ)/24, 0, 1, 0, 1⟩]
      = ⟨.finite 0, .finite 0, .finite 0, 0, .finite 0, .finite 0, "1H"⟩ := by
    norm_num [calculate_metrics, safe_float, trades_only_float,
      calculate_trades_only_return, calculate_buy_and_hold_return, hdet]
  simp only [run_backtest, hflt, hsig, hovr, hmet]
  simp

/-- Witness for the amended C5 on a concrete hourly frame with override
`1D`: the simulator settings carry `1D` while the annotation is the
re-detected frequency of the filtered frame. -/
theorem freq_override_partial_win_witness :
    (⟨⟨[1, 1], [false, false], [false, false], 0, 0, 0, "1D", false,
       "ignore", "ignore"⟩,
      ⟨.finite 0, .finite 0, .finite 0, 0, .finite 0, .finite 0, "1H"⟩⟩ :
        RunOutput).settings.freq = "1D" ∧
    (⟨⟨[1, 1], [false, false], [false, false], 0, 0, 0, "1D", false,
       "ignore", "ignore"⟩,
      ⟨.finite 0, .finite 0, .finite 0, 0, .finite 0, .finite 0, "1H"⟩⟩ :
        RunOutput).results.freq =
      determine_frequency
        (filter_data_by_period [⟨0, 0, 1, 0, 1⟩, ⟨1/24, 0, 1, 0, 1⟩] "all") none :=
  freq_override_partial_win [⟨0, 0, 1, 0, 1⟩, ⟨1/24, 0, 1, 0, 1⟩] 0 0 0 0 0 "v"
    "1D" "threshold" none none "all" (fun _ => ⟨.finite 0, .finite 0, .finite 0, 0⟩)
    _ (by decide) run_backtest_override_eval

/-- Claim C5, counterexample: on an hourly frame with override `1D`, the
run succeeds but the `freq` annotation on the returned result is the
detected `1H`, not the override — the override does not win for the
annotation. -/
theorem freq_override_partial_win_counterexample :
    run_backtest [⟨0, 0, 1, 0, 1⟩, ⟨1/24, 0, 1, 0, 1⟩] 0 0 0 0 0 "v"
        (some "1D") "threshold" none none "all"
        (fun _ => ⟨.finite 0, .finite 0, .finite 0, 0⟩)
      = .ok ⟨⟨[1, 1], [false, false], [false, false], 0, 0, 0, "1D", false,
              "ignore", "ignore"⟩,
             ⟨.finite 0, .finite 0, .finite 0, 0, .finite 0, .finite 0, "1H"⟩⟩ ∧
    (⟨⟨[1, 1], [false, false], [false, false], 0, 0, 0, "1D", false,
       "ignore", "ignore"⟩,
      ⟨.finite 0, .finite 0, .finite 0, 0, .finite 0, .finite 0, "1H"⟩⟩ :
        RunOutput).results.freq ≠ "1D" :=
  ⟨run_backtest_override_eval, by decide⟩

lemma tpsl_scan_lt (prices : List ℚ) (entryPrice : ℚ) (useTP useSL : Bool)
    (tp sl : ℚ) (start stop j : ℕ)
    (h : tpsl_scan prices entryPrice useTP useSL tp sl start stop = some j) :
    j < prices.length := by
  rw [tpsl_scan] at h
  have hmem := List.mem_of_find?_eq_some h
  obtain ⟨h1, h2⟩ := List.mem_range'_1.mp hmem
  have hj : j < min stop prices.length := by omega
  exact lt_of_lt_of_le hj (Nat.min_le_right _ _)

lemma foldl_set_getD (f : ℕ → Option ℕ) :
    ∀ (L : List ℕ) (init : List Bool),
      (∀ e ∈ L, ∀ j, f e = some j → j < init.length) → ∀ i,
      (L.foldl (fun mex e =>
          match f e with
          | some j => mex.set j true
          | none => mex) init).getD i false
        = (init.getD i false || L.any (fun e => decide (f e = some i))) := by
  intro L
  induction L with
  | nil =>
    intro init _ i
    simp
  | cons e L ih =>
    intro init hf i
    rw [List.foldl_cons, List.any_cons]
    rcases hfe : f e with _ | j
    · have hred : (match (none : Option ℕ) with
          | some j => init.set j true
          | none => init) = init := rfl
      rw [hred, ih init (fun e' he' => hf e' (List.mem_cons_of_mem _ he')) i]
      simp
    · have hj : j < init.length := hf e (List.mem_cons_self _ _) j hfe
      have hred : (match (some j : Option ℕ) with
          | some j' => init.set j' true
          | none => init) = init.set j true := rfl
      rw [hred,
        ih (init.set j true) (fun e' he' j' hj' => by
          rw [List.length_set]
          exact hf e' (List.mem_cons_of_mem _ he') j' hj') i,
        getD_set_true init j i hj]
      by_cases hij : i = j
      · subst hij
        simp
      · have hne : ¬ (some j = some i) := by
          intro hc
          exact hij (Option.some.inj hc).symm
        simp [hij, hne]

/-- Claim C2: with TP/SL enabled under the multi-series strategy, the
modified exit series is exactly the original exits plus, for every entry
position `e`, a forced exit at the first bar after `e` and before the next
natural exit (or the series end) where the price move from the entry price
reaches the enabled take-profit or stop-loss threshold; the scan
contributes at most that one bar per entry (take-profit is tested first at
each bar, so it wins a simultaneous trigger). -/
theorem tpsl_forces_first_trigger (prices : List ℚ) (entries exits : List Bool)
    (takeProfitPct stopLossPct : ℚ) (useTP useSL : Bool)
    (hlen : exits.length = prices.length) (i : ℕ) :
    (apply_take_profit_stop_loss prices entries exits takeProfitPct stopLossPct
        useTP useSL).getD i false
      = (exits.getD i false ||
         (List.range entries.length).any (fun e =>
           entries.getD e false &&
           decide (tpsl_scan prices (prices.getD e 0) useTP useSL
             (takeProfitPct / 100) (stopLossPct / 100) (e + 1)
             (next_exit_end exits prices e) = some i))) := by
  have hmain := foldl_set_getD
    (fun e => tpsl_scan prices (prices.getD e 0) useTP useSL
      (takeProfitPct / 100) (stopLossPct / 100) (e + 1)
      (next_exit_end exits prices e))
    ((List.range entries.length).filter (fun e => entries.getD e false))
    exits
    (fun e _ j hj => hlen ▸ tpsl_scan_lt _ _ _ _ _ _ _ _ _ hj)
    i
  have h2 : (apply_take_profit_stop_loss prices entries exits takeProfitPct
      stopLossPct useTP useSL).getD i false
      = (exits.getD i false ||
         ((List.range entries.length).filter (fun e => entries.getD e false)).any
           (fun e => decide (tpsl_scan prices (prices.getD e 0) useTP useSL
             (takeProfitPct / 100) (stopLossPct / 100) (e + 1)
             (next_exit_end exits prices e) = some i))) := hmain
  rw [h2, any_of_filter]

/-- Witness for C2 (the spec's Scenario C): entry at index 0 with price
100, take-profit 3% enabled, subsequent prices `[101, 103, 99]` and no
natural exits — the forced exit lands exactly on index 2, the first bar
reaching a 3% gain. -/
theorem tpsl_forces_first_trigger_witness :
    ([false, false, false, false] : List Bool).length
        = ([100, 101, 103, 99] : List ℚ).length ∧
    (apply_take_profit_stop_loss [100, 101, 103, 99] [true, false, false, false]
        [false, false, false, false] 3 1 true false).getD 2 false = true ∧
    (apply_take_profit_stop_loss [100, 101, 103, 99] [true, false, false, false]
        [false, false, false, false] 3 1 true false).getD 1 false = false := by
  refine ⟨rfl, ?_, ?_⟩
  · rw [tpsl_forces_first_trigger [100, 101, 103, 99] [true, false, false, false]
      [false, false, false, false] 3 1 true false rfl 2]
    norm_num [next_exit_end, tpsl_scan, tpsl_hit, List.range_succ,
      List.range'_succ, List.find?]
    intro j h1 h2
    interval_cases j
    norm_num
  · rw [tpsl_forces_first_trigger [100, 101, 103, 99] [true, false, false, false]
      [false, false, false, false] 3 1 true false rfl 1]
    norm_num [next_exit_end, tpsl_scan, tpsl_hit, List.range_succ,
      List.range'_succ, List.find?]
